import Mathlib

/-!
Shallow embedding of the Bluff Battle rule engine (card data model, battle
resolution, grid battle-pair enumeration, player scoring, and the challenge
protocol), translated from the JavaScript sources:
  src/js/utils/Constants.js, src/js/core/Card.js, src/js/systems/BattleSystem.js,
  src/js/systems/GridSystem.js, the Player class and the ChallengeSystem class.

Modelling conventions: JavaScript numbers that hold integral game quantities
become Int (scores, statistics counters) or Nat (indices, sizes); nullable
references become Option; methods that throw become Option-returning
functions; in-place mutation becomes functional record update, with the
updated objects returned.  Wall-clock timestamps (Date.now), display-only
strings (names, icons, explanation messages), debug logging and the rolling
floating-point frequency fields of the behavior profile are omitted: no
modelled operation reads them.  The challenge-window timer is modelled by the
timerActive flag; the timer firing is exactly the closeChallengeWindow
transition.  Emissions of the CHALLENGE_WINDOW_CLOSED event are counted in
the closedEventCount field so that the emission side effect of
closeChallengeWindow is observable in the model.
-/

namespace BluffBattle

/-- Card types, from CARD_TYPES in Constants.js. -/
inductive CardType
  | rock
  | paper
  | scissors
deriving DecidableEq

/-- Battle-relevant part of a CARD_INFO entry (Constants.js): which type this
type defeats and which type defeats it.  The display name and icon strings
are omitted. -/
structure CardInfo where
  defeats : CardType
  defeatedBy : CardType
deriving DecidableEq

/-- CARD_INFO from Constants.js: rock defeats scissors, paper defeats rock,
scissors defeats paper. -/
def CARD_INFO : CardType → CardInfo
  | CardType.rock => { defeats := CardType.scissors, defeatedBy := CardType.paper }
  | CardType.paper => { defeats := CardType.rock, defeatedBy := CardType.scissors }
  | CardType.scissors => { defeats := CardType.paper, defeatedBy := CardType.rock }

/-- Card lifecycle states, from CARD_STATES in Constants.js. -/
inductive CardState
  | in_hand
  | selected
  | placed
  | revealed
deriving DecidableEq

/-- Grid position states, from POSITION_STATES in Constants.js. -/
inductive PositionState
  | empty
  | occupied
  | selectedPos
  | highlighted
deriving DecidableEq

/-- Battle results recorded in card battle histories, from BATTLE_RESULTS. -/
inductive BattleResult
  | win
  | lose
  | advance
deriving DecidableEq

/-- Challenge results, from CHALLENGE_RESULTS in Constants.js. -/
inductive ChallengeResult
  | successful
  | failed
  | truthful
deriving DecidableEq

/-- A battle history entry (the timestamp and position fields of the record
built in BattleSystem.processBattle are omitted; no modelled operation reads
battle history entries). -/
structure BattleRecord where
  opponent : Nat
  opponentType : CardType
  result : BattleResult
deriving DecidableEq

-- GAME_CONFIG constants from Constants.js.
namespace GAME_CONFIG

def GRID_WIDTH : Nat := 5

def GRID_HEIGHT : Nat := 3

def TOTAL_POSITIONS : Nat := 15

def VICTORY_POINTS : Int := 10

def MIN_VICTORY_LEAD : Int := 1

end GAME_CONFIG

-- SCORING constants from Constants.js.
namespace SCORING

def ADVANCEMENT : Int := 1

def CONTROL : Int := 1

def BATTLE_WIN : Int := 1

def CHALLENGE_PENALTY : Int := 1

end SCORING

/-- The Card class (Card.js).  The id is modelled as a Nat, the owner weak
reference as the owning player id.  createdAt, placedAt and revealedAt
timestamps are omitted. -/
structure Card where
  id : Nat
  type : CardType
  state : CardState
  claimedType : Option CardType
  owner : Option Nat
  position : Option Nat
  isRevealed : Bool
  battleHistory : List BattleRecord
deriving DecidableEq

/-- Card.isBluffing: the claimed type is set and differs from the actual
type. -/
def Card.isBluffing (c : Card) : Bool :=
  c.claimedType.isSome && c.claimedType != some c.type

/-- Card.reveal: sets isRevealed and moves the state to revealed. -/
def Card.reveal (c : Card) : Card :=
  { c with isRevealed := true, state := CardState.revealed }

/-- Card.place: throws on a position outside 0..TOTAL_POSITIONS-1, otherwise
records the position and moves the state to placed. -/
def Card.place (c : Card) (position : Nat) : Option Card :=
  if position < GAME_CONFIG.TOTAL_POSITIONS then
    some { c with position := some position, state := CardState.placed }
  else
    none

/-- Battle outcomes returned by BattleSystem.determineBattleOutcome
(the explanation display string is omitted). -/
inductive BattleOutcome
  | card1_wins
  | card2_wins
  | tie
deriving DecidableEq

/-- BattleSystem.determineBattleOutcome (BattleSystem.js, lines 231-253):
compares the actual types of the two cards; equal types tie, otherwise the
CARD_INFO defeats relation decides the winner. -/
def determineBattleOutcome (card1 card2 : Card) : BattleOutcome :=
  if card1.type = card2.type then
    BattleOutcome.tie
  else if (CARD_INFO card1.type).defeats = card2.type then
    BattleOutcome.card1_wins
  else
    BattleOutcome.card2_wins

/-- Claim C1 helper: the claim phrasing of the pairs on which card1 wins. -/
def card1WinningPair (a b : CardType) : Prop :=
  (a = CardType.rock ∧ b = CardType.scissors) ∨
    (a = CardType.paper ∧ b = CardType.rock) ∨
    (a = CardType.scissors ∧ b = CardType.paper)

instance (a b : CardType) : Decidable (card1WinningPair a b) := by
  unfold card1WinningPair
  infer_instance

/-- The stats record of the Player class constructor, plus the truthfulPlays
counter that ChallengeSystem.processChallenge adds dynamically.  JavaScript
number counters can go negative (bluffsAttempted is decremented on a caught
bluff), so they are modelled as Int. -/
structure PlayerStats where
  gamesPlayed : Int
  gamesWon : Int
  roundsWon : Int
  cardsPlayed : Int
  bluffsAttempted : Int
  bluffsSuccessful : Int
  challengesMade : Int
  challengesSuccessful : Int
  battlesWon : Int
  battlesLost : Int
  totalPoints : Int
  truthfulPlays : Int
deriving DecidableEq

/-- Action tags passed to Player.updateBehaviorProfile. -/
inductive ActionType
  | cardPlayed
  | challengeMade
  | challengeReceived
deriving DecidableEq

/-- The behaviorProfile record of the Player class.  Only the bounded
recentActions window is modelled (entries abstracted to their action tag);
the rolling bluffing/challenging frequency fields are floating-point
ratios and the preference histograms are display/AI-only, and no modelled
operation reads them. -/
structure BehaviorProfile where
  recentActions : List ActionType
deriving DecidableEq

/-- Player types, from PLAYER_TYPES in Constants.js. -/
inductive PlayerType
  | human
  | ai
deriving DecidableEq

/-- The Player class (hand management and display fields that no claim
touches are kept as plain data; the name string is omitted). -/
structure Player where
  id : Nat
  type : PlayerType
  score : Int
  hand : List Card
  placedCards : List Card
  selectedCard : Option Card
  isActive : Bool
  stats : PlayerStats
  behaviorProfile : BehaviorProfile
deriving DecidableEq

/-- Player.addScore: score becomes Math.max(0, score + points); positive
points are also accumulated into stats.totalPoints. -/
def Player.addScore (p : Player) (points : Int) : Player :=
  { p with
    score := max 0 (p.score + points),
    stats :=
      if 0 < points then
        { p.stats with totalPoints := p.stats.totalPoints + points }
      else
        p.stats }

/-- Player.hasWon: the score reached VICTORY_POINTS and leads the opponent
score by at least MIN_VICTORY_LEAD. -/
def Player.hasWon (p opponent : Player) : Bool :=
  decide (GAME_CONFIG.VICTORY_POINTS ≤ p.score) &&
    decide (opponent.score + GAME_CONFIG.MIN_VICTORY_LEAD ≤ p.score)

/-- Player.updateBehaviorProfile: appends the action to the bounded
recentActions window (last 20 kept).  The frequency-ratio updates of the
cardPlayed and challengeMade cases are floating-point and omitted; they
touch no modelled field. -/
def Player.updateBehaviorProfile (p : Player) (actionType : ActionType) : Player :=
  let actions := p.behaviorProfile.recentActions ++ [actionType]
  let actions := if 20 < actions.length then actions.drop 1 else actions
  { p with behaviorProfile := { p.behaviorProfile with recentActions := actions } }

/-- A sequence of Player.addScore calls, applied in order. -/
def Player.applyScoreCalls (p : Player) : List Int → Player
  | [] => p
  | points :: rest => Player.applyScoreCalls (p.addScore points) rest

/-- A fresh player as built by the Player constructor: score 0, empty hand,
all statistics zero. -/
def mkPlayer (id : Nat) (type : PlayerType) : Player :=
  { id := id
    type := type
    score := 0
    hand := []
    placedCards := []
    selectedCard := none
    isActive := false
    stats :=
      { gamesPlayed := 0, gamesWon := 0, roundsWon := 0, cardsPlayed := 0,
        bluffsAttempted := 0, bluffsSuccessful := 0, challengesMade := 0,
        challengesSuccessful := 0, battlesWon := 0, battlesLost := 0,
        totalPoints := 0, truthfulPlays := 0 }
    behaviorProfile := { recentActions := [] } }

/-- A sample player at a given score, used to instantiate theorems on
concrete inputs. -/
def samplePlayer (id : Nat) (score : Int) : Player :=
  { mkPlayer id PlayerType.human with score := score }

/-- The lastPlayedCard record built by ChallengeSystem.registerPlay.  The
timestamp is omitted (window expiry is modelled by the closeChallengeWindow
transition, which the timer invokes). -/
structure PendingPlay where
  card : Card
  player : Player
  claimedType : CardType
  actualType : CardType
  position : Nat
  challengeable : Bool
deriving DecidableEq

/-- An entry of the bounded challengeHistory (players and card abstracted to
their ids; timestamp omitted). -/
structure ChallengeRecord where
  challengerId : Nat
  defendingPlayerId : Nat
  cardId : Nat
  claimedType : CardType
  actualType : CardType
  result : ChallengeResult
  pointsChanged : Int
deriving DecidableEq

/-- The ChallengeSystem class state.  timerActive models a non-null
challengeTimer; closedEventCount counts CHALLENGE_WINDOW_CLOSED emissions
so that the side effect of closeChallengeWindow is observable. -/
structure ChallengeSystem where
  lastPlayedCard : Option PendingPlay
  challengeHistory : List ChallengeRecord
  timerActive : Bool
  closedEventCount : Nat
deriving DecidableEq

/-- The result object built by ChallengeSystem.processChallenge, together
with the objects it mutates (the challenger, the defending player and the
challenged card).  The explanation display string is omitted. -/
structure ChallengeOutcome where
  result : ChallengeResult
  wasBluff : Bool
  pointsChanged : Int
  cardRevealed : Bool
  challenger : Player
  defendingPlayer : Player
  card : Card
deriving DecidableEq

/-- The failure reasons of ChallengeSystem.makeChallenge (the two error
message strings of the source). -/
inductive ChallengeError
  | noChallengeablePlay
  | selfChallenge
deriving DecidableEq

/-- The {success, error, result} object returned by
ChallengeSystem.makeChallenge. -/
structure MakeChallengeReturn where
  success : Bool
  error : Option ChallengeError
  result : Option ChallengeOutcome
deriving DecidableEq

/-- ChallengeSystem.registerPlay: clears any pending timer, stores the play
as challengeable with actualType taken from the card, and starts the
challenge-window timer. -/
def ChallengeSystem.registerPlay (sys : ChallengeSystem) (card : Card)
    (player : Player) (claimedType : CardType) (position : Nat) : ChallengeSystem :=
  { sys with
    lastPlayedCard := some
      { card := card, player := player, claimedType := claimedType,
        actualType := card.type, position := position, challengeable := true },
    timerActive := true }

/-- ChallengeSystem.processChallenge (the unnamed challenge-system source,
lines 144-208): decides wasBluff from claimed versus actual type; on a bluff
the challenge succeeds with no point change (statistics only), otherwise it
fails and the challenger pays CHALLENGE_PENALTY through Player.addScore; the
challenged card is revealed and both behavior profiles are updated. -/
def ChallengeSystem.processChallenge (challenger : Player)
    (playData : PendingPlay) : ChallengeOutcome :=
  let wasBluff : Bool := playData.claimedType != playData.actualType
  if wasBluff then
    let challenger1 :=
      { challenger with stats :=
          { challenger.stats with
            challengesSuccessful := challenger.stats.challengesSuccessful + 1 } }
    let defender1 :=
      { playData.player with stats :=
          { playData.player.stats with
            bluffsAttempted := playData.player.stats.bluffsAttempted - 1 } }
    { result := ChallengeResult.successful
      wasBluff := wasBluff
      pointsChanged := 0
      cardRevealed := true
      challenger := challenger1.updateBehaviorProfile ActionType.challengeMade
      defendingPlayer := defender1.updateBehaviorProfile ActionType.challengeReceived
      card := playData.card.reveal }
  else
    let challenger1 := challenger.addScore (-SCORING.CHALLENGE_PENALTY)
    let defender1 :=
      { playData.player with stats :=
          { playData.player.stats with
            truthfulPlays := playData.player.stats.truthfulPlays + 1 } }
    { result := ChallengeResult.failed
      wasBluff := wasBluff
      pointsChanged := -SCORING.CHALLENGE_PENALTY
      cardRevealed := true
      challenger := challenger1.updateBehaviorProfile ActionType.challengeMade
      defendingPlayer := defender1.updateBehaviorProfile ActionType.challengeReceived
      card := playData.card.reveal }

/-- The failure return value of ChallengeSystem.makeChallenge. -/
def makeChallengeFailure (error : ChallengeError) : MakeChallengeReturn :=
  { success := false, error := some error, result := none }

/-- ChallengeSystem.makeChallenge (the unnamed challenge-system source,
lines 71-136): fails without mutation when no play is pending or the play is
no longer challengeable, or when the challenger is the author of the play
(compared by player identity); otherwise cancels the timer, processes the
challenge, appends a history record, marks the play non-challengeable and
returns success.  The updated defender and card are stored back into the
pending play (they are the same objects in the source); the updated
challenger is returned alongside. -/
def ChallengeSystem.makeChallenge (sys : ChallengeSystem) (challenger : Player) :
    MakeChallengeReturn × ChallengeSystem × Player :=
  match sys.lastPlayedCard with
  | none => (makeChallengeFailure ChallengeError.noChallengeablePlay, sys, challenger)
  | some play =>
    if play.challengeable = false then
      (makeChallengeFailure ChallengeError.noChallengeablePlay, sys, challenger)
    else if challenger.id = play.player.id then
      (makeChallengeFailure ChallengeError.selfChallenge, sys, challenger)
    else
      let outcome := ChallengeSystem.processChallenge challenger play
      let record : ChallengeRecord :=
        { challengerId := challenger.id
          defendingPlayerId := play.player.id
          cardId := play.card.id
          claimedType := play.claimedType
          actualType := play.actualType
          result := outcome.result
          pointsChanged := outcome.pointsChanged }
      let play1 :=
        { play with
          player := outcome.defendingPlayer
          card := outcome.card
          challengeable := false }
      ({ success := true, error := none, result := some outcome },
        { sys with
          timerActive := false
          challengeHistory := sys.challengeHistory ++ [record]
          lastPlayedCard := some play1 },
        outcome.challenger)

/-- ChallengeSystem.closeChallengeWindow (lines 213-233): marks the pending
play (when present) non-challengeable, cancels any pending timer, and emits
the CHALLENGE_WINDOW_CLOSED event (counted in closedEventCount).  The
emission is unconditional in the source. -/
def ChallengeSystem.closeChallengeWindow (sys : ChallengeSystem) : ChallengeSystem :=
  let sys1 :=
    match sys.lastPlayedCard with
    | some play => { sys with lastPlayedCard := some { play with challengeable := false } }
    | none => sys
  { sys1 with timerActive := false, closedEventCount := sys1.closedEventCount + 1 }

/-- The guard of ChallengeSystem.makeChallenge: a pending play exists and is
still challengeable. -/
def ChallengeSystem.hasChallengeablePlay (sys : ChallengeSystem) : Bool :=
  match sys.lastPlayedCard with
  | some play => play.challengeable
  | none => false

/-- A sample card used to instantiate theorems on concrete inputs. -/
def sampleCard (id : Nat) (type : CardType) (claimedType : CardType) : Card :=
  { id := id, type := type, state := CardState.placed, claimedType := some claimedType,
    owner := some 1, position := some 3, isRevealed := false, battleHistory := [] }

/-- A sample pending play: the player with id 1 plays a rock at position 3
and claims it truthfully. -/
def samplePlayTruthful : PendingPlay :=
  { card := sampleCard 7 CardType.rock CardType.rock
    player := samplePlayer 1 5
    claimedType := CardType.rock
    actualType := CardType.rock
    position := 3
    challengeable := true }

/-- A sample pending play where the claim is a bluff: the card is a rock
claimed as paper. -/
def samplePlayBluff : PendingPlay :=
  { card := sampleCard 8 CardType.rock CardType.paper
    player := samplePlayer 1 5
    claimedType := CardType.paper
    actualType := CardType.rock
    position := 3
    challengeable := true }

/-- The empty challenge system produced by the ChallengeSystem
constructor. -/
def emptyChallengeSystem : ChallengeSystem :=
  { lastPlayedCard := none, challengeHistory := [], timerActive := false,
    closedEventCount := 0 }

/-- A sample challenge system holding the truthful pending play, obtained by
registering that play on the fresh system. -/
def sampleSys : ChallengeSystem :=
  ChallengeSystem.registerPlay emptyChallengeSystem
    (sampleCard 7 CardType.rock CardType.rock) (samplePlayer 1 5) CardType.rock 3

/-- The GridSystem class (GridSystem.js): a dense row-major array of
width * height slots, each holding at most one Card, plus a parallel array
of position states.  The change history and lastModified bookkeeping are
timestamp-based debug data and are omitted. -/
structure GridSystem where
  width : Nat
  height : Nat
  grid : List (Option Card)
  positionStates : List PositionState
deriving DecidableEq

/-- this.totalPositions, fixed at construction as width * height. -/
def GridSystem.totalPositions (g : GridSystem) : Nat := g.width * g.height

/-- GridSystem.getCardAt: null outside 0..totalPositions-1, otherwise the
slot content. -/
def GridSystem.getCardAt (g : GridSystem) (position : Nat) : Option Card :=
  if position < g.totalPositions then g.grid.getD position none else none

/-- GridSystem.positionToCoords: throws outside the valid range, otherwise
row-major decomposition (row = position / width, col = position % width). -/
def GridSystem.positionToCoords (g : GridSystem) (position : Nat) :
    Option (Nat × Nat) :=
  if position < g.totalPositions then
    some (position / g.width, position % g.width)
  else
    none

/-- GridSystem.isPositionAvailable: in range and the slot is empty. -/
def GridSystem.isPositionAvailable (g : GridSystem) (position : Nat) : Bool :=
  decide (position < g.totalPositions) && (g.grid.getD position none).isNone

/-- GridSystem.getPositionState: EMPTY outside the valid range, otherwise
the stored state. -/
def GridSystem.getPositionState (g : GridSystem) (position : Nat) : PositionState :=
  if position < g.totalPositions then
    g.positionStates.getD position PositionState.empty
  else
    PositionState.empty

/-- A battle pair as built by GridSystem.getBattlePairs (the constant
type field, always horizontal, is omitted). -/
structure BattlePair where
  position1 : Nat
  card1 : Card
  position2 : Nat
  card2 : Card
deriving DecidableEq

/-- GridSystem.getBattlePairs (GridSystem.js, lines 433-462): walks the
positions 0..totalPositions-2 and pairs position with position+1 when both
slots are occupied and the two coordinates lie in the same row with the
second in the next column. -/
def GridSystem.getBattlePairs (g : GridSystem) : List BattlePair :=
  (List.range (g.totalPositions - 1)).filterMap fun position =>
    match g.getCardAt position, g.getCardAt (position + 1) with
    | some currentCard, some nextCard =>
      match g.positionToCoords position, g.positionToCoords (position + 1) with
      | some currentCoords, some nextCoords =>
        if currentCoords.1 = nextCoords.1 ∧ nextCoords.2 = currentCoords.2 + 1 then
          some
            { position1 := position, card1 := currentCard,
              position2 := position + 1, card2 := nextCard }
        else
          none
      | _, _ => none
    | _, _ => none

/-- Claim C6 reference definition, written from the claim wording rather
than the source: the occupied, same-row, column-adjacent pairs (p, p+1) for
p in 0..N-2, in increasing order of p, with rows and columns given by the
row-major indexing of the data model. -/
def battlePairsSpec (g : GridSystem) : List BattlePair :=
  (List.range (g.totalPositions - 1)).filterMap fun p =>
    match g.getCardAt p, g.getCardAt (p + 1) with
    | some c1, some c2 =>
      if p / g.width = (p + 1) / g.width ∧ (p + 1) % g.width = p % g.width + 1 then
        some { position1 := p, card1 := c1, position2 := p + 1, card2 := c2 }
      else
        none
    | _, _ => none

/-- GridSystem.removeCard (GridSystem.js, lines 126-154): throws outside the
valid range; on an occupied slot clears the slot, resets its position state
to EMPTY and returns the card; on an empty slot returns null.  The removed
card itself is not touched. -/
def GridSystem.removeCard (g : GridSystem) (position : Nat) :
    Option (Option Card × GridSystem) :=
  if position < g.totalPositions then
    match g.grid.getD position none with
    | some card =>
      some (some card,
        { g with
          grid := g.grid.set position none,
          positionStates := g.positionStates.set position PositionState.empty })
    | none => some (none, g)
  else
    none

/-- A sample placed card used to instantiate grid theorems. -/
def placedSampleCard (id : Nat) (type : CardType) (position : Nat) : Card :=
  { id := id, type := type, state := CardState.placed, claimedType := some type,
    owner := some 0, position := some position, isRevealed := false,
    battleHistory := [] }

/-- A sample 5 by 3 grid with cards at positions 4 and 5, the two sides of
a row boundary, and at position 3. -/
def sampleGrid : GridSystem :=
  { width := 5
    height := 3
    grid :=
      (((List.replicate 15 (none : Option Card)).set 3
            (some (placedSampleCard 20 CardType.paper 3))).set 4
          (some (placedSampleCard 21 CardType.rock 4))).set 5
        (some (placedSampleCard 22 CardType.scissors 5))
    positionStates :=
      (((List.replicate 15 PositionState.empty).set 3
            PositionState.occupied).set 4 PositionState.occupied).set 5
        PositionState.occupied }

/-! ## Theorems -/

/-- Claim C1: battle resolution is a pure function of the two actual card
types: the outcome is tie iff the types are equal, card1_wins iff the pair
of actual types is (rock, scissors), (paper, rock) or (scissors, paper),
and card2_wins exactly otherwise; changing the claimedType fields of either
card never changes the outcome. -/
theorem C1_battle_outcome_pure_in_actual_types (card1 card2 : Card) :
    (determineBattleOutcome card1 card2 = BattleOutcome.tie ↔ card1.type = card2.type) ∧
    (determineBattleOutcome card1 card2 = BattleOutcome.card1_wins ↔
      card1WinningPair card1.type card2.type) ∧
    (determineBattleOutcome card1 card2 = BattleOutcome.card2_wins ↔
      ¬ card1.type = card2.type ∧ ¬ card1WinningPair card1.type card2.type) ∧
    (∀ q1 q2 : Option CardType,
      determineBattleOutcome { card1 with claimedType := q1 } { card2 with claimedType := q2 } =
        determineBattleOutcome card1 card2) := by
  obtain ⟨i1, t1, s1, q1, o1, p1, r1, b1⟩ := card1
  obtain ⟨i2, t2, s2, q2, o2, p2, r2, b2⟩ := card2
  refine ⟨?_, ?_, ?_, fun _ _ => rfl⟩ <;>
    cases t1 <;> cases t2 <;>
      simp [determineBattleOutcome, CARD_INFO, card1WinningPair]

/-- One Player.addScore call always leaves the score non-negative. -/
theorem addScore_score_nonneg (p : Player) (points : Int) :
    0 ≤ (p.addScore points).score :=
  le_max_left 0 (p.score + points)

/-- Applying any sequence of score calls to a player keeps the final score
non-negative once the starting score is non-negative. -/
theorem applyScoreCalls_score_nonneg (calls : List Int) (p : Player)
    (h : 0 ≤ p.score) : 0 ≤ (p.applyScoreCalls calls).score := by
  induction calls generalizing p with
  | nil => exact h
  | cons points rest ih =>
    exact ih (p.addScore points) (addScore_score_nonneg p points)

/-- Claim C2: for every player and every sequence of score-changing calls
(Player.addScore with positive or negative arguments), the score is
non-negative after every call: the state reached after the first i+1 calls
of the sequence has non-negative score, because a deduction is clamped at
zero. -/
theorem C2_score_nonneg_after_every_call (p : Player) (calls : List Int)
    (i : Nat) (hi : i < calls.length) :
    0 ≤ (p.applyScoreCalls (calls.take (i + 1))).score := by
  cases calls with
  | nil => simp at hi
  | cons points rest =>
    simp only [List.take_succ_cons, Player.applyScoreCalls]
    exact applyScoreCalls_score_nonneg (rest.take i) (p.addScore points)
      (addScore_score_nonneg p points)

/-- Witness for claim C2: a player at score 0 hit with a deduction of 5 and
then an award of 3 has non-negative score after the first call. -/
theorem C2_score_nonneg_after_every_call_witness :
    0 ≤ ((samplePlayer 0 0).applyScoreCalls ([-5, 3].take (0 + 1))).score :=
  C2_score_nonneg_after_every_call (samplePlayer 0 0) [-5, 3] 0 (by decide)

/-- Counterexample for claim C7: with VICTORY_POINTS = 10 and
MIN_VICTORY_LEAD = 1, a player at score 10 facing an opponent at score 9
has hasWon = true, not false as the claim states: 10 is at least 10 and at
least 9 + 1. -/
theorem C7_counterexample_hasWon_true_at_10_9 :
    (samplePlayer 0 10).hasWon (samplePlayer 1 9) = true := by decide

/-- Claim C7 as amended: with VICTORY_POINTS = 10 and MIN_VICTORY_LEAD = 1,
when the player score is exactly 10 and the opponent score is 9, hasWon
returns true (the lead of exactly 1 meets the minimum lead of 1). -/
theorem C7_amended_hasWon_true_at_10_9 (p opponent : Player)
    (hp : p.score = 10) (ho : opponent.score = 9) :
    p.hasWon opponent = true := by
  simp [Player.hasWon, GAME_CONFIG.VICTORY_POINTS, GAME_CONFIG.MIN_VICTORY_LEAD, hp, ho]

/-- Witness for the amended claim C7 at concrete players. -/
theorem C7_amended_hasWon_true_at_10_9_witness :
    (samplePlayer 0 10).hasWon (samplePlayer 1 9) = true :=
  C7_amended_hasWon_true_at_10_9 (samplePlayer 0 10) (samplePlayer 1 9) rfl rfl

/-- Counterexample for claim C9: victory is not monotone in the lead alone.
At the snapshot (10, 9) hasWon is true; at the snapshot (2, 0) the lead has
not decreased (2 - 0 is at least 10 - 9), yet hasWon is false because the
score fell below VICTORY_POINTS. -/
theorem C9_counterexample_not_monotone_in_lead :
    (samplePlayer 0 10).hasWon (samplePlayer 1 9) = true ∧
    (samplePlayer 0 10).score - (samplePlayer 1 9).score ≤
      (samplePlayer 2 2).score - (samplePlayer 3 0).score ∧
    (samplePlayer 2 2).hasWon (samplePlayer 3 0) = false := by
  refine ⟨by decide, by decide, by decide⟩

/-- Claim C9 as amended: for score snapshots (s, o) and (s2, o2) of a player
and the opponent, if hasWon is true at (s, o), the lead has not decreased
(s - o is at most s2 - o2) and the player score has not decreased
(s is at most s2), then hasWon is true at (s2, o2). -/
theorem C9_amended_hasWon_monotone (p o p2 o2 : Player)
    (h : p.hasWon o = true)
    (hlead : p.score - o.score ≤ p2.score - o2.score)
    (hscore : p.score ≤ p2.score) :
    p2.hasWon o2 = true := by
  simp only [Player.hasWon, GAME_CONFIG.VICTORY_POINTS, GAME_CONFIG.MIN_VICTORY_LEAD,
    Bool.and_eq_true, decide_eq_true_eq] at h ⊢
  omega

/-- Witness for the amended claim C9: from the winning snapshot (10, 9) to
the snapshot (11, 10), where neither the lead nor the score decreased. -/
theorem C9_amended_hasWon_monotone_witness :
    (samplePlayer 2 11).hasWon (samplePlayer 3 10) = true :=
  C9_amended_hasWon_monotone (samplePlayer 0 10) (samplePlayer 1 9)
    (samplePlayer 2 11) (samplePlayer 3 10) (by decide) (by decide) (by decide)

/-- Player.updateBehaviorProfile never changes the score. -/
theorem updateBehaviorProfile_score (p : Player) (a : ActionType) :
    (p.updateBehaviorProfile a).score = p.score := rfl

/-- Claim C3: challenging a truthful play (claimed type equal to actual
type) yields CHALLENGE_FAILED, decreases the challenger score by exactly
CHALLENGE_PENALTY clamped at zero, reports pointsChanged as minus the
penalty, and leaves the defending player score unchanged. -/
theorem C3_failed_challenge_penalizes_challenger_only (challenger : Player)
    (play : PendingPlay) (h : play.claimedType = play.actualType) :
    (ChallengeSystem.processChallenge challenger play).result = ChallengeResult.failed ∧
    (ChallengeSystem.processChallenge challenger play).challenger.score =
      max 0 (challenger.score - SCORING.CHALLENGE_PENALTY) ∧
    (ChallengeSystem.processChallenge challenger play).pointsChanged =
      -SCORING.CHALLENGE_PENALTY ∧
    (ChallengeSystem.processChallenge challenger play).defendingPlayer.score =
      play.player.score := by
  have hb : (play.claimedType != play.actualType) = false := by
    simp [h]
  simp [ChallengeSystem.processChallenge, hb, Player.addScore,
    Player.updateBehaviorProfile, Int.sub_eq_add_neg]

/-- Witness for claim C3: a truthful play challenged by a player at score 1
fails and leaves the challenger at score 0; a challenger at score 0 stays at
0; the defender stays at score 5. -/
theorem C3_failed_challenge_penalizes_challenger_only_witness :
    ((ChallengeSystem.processChallenge (samplePlayer 0 1) samplePlayTruthful).result =
        ChallengeResult.failed ∧
      (ChallengeSystem.processChallenge (samplePlayer 0 1) samplePlayTruthful).challenger.score =
        max 0 ((samplePlayer 0 1).score - SCORING.CHALLENGE_PENALTY) ∧
      (ChallengeSystem.processChallenge (samplePlayer 0 1) samplePlayTruthful).pointsChanged =
        -SCORING.CHALLENGE_PENALTY ∧
      (ChallengeSystem.processChallenge (samplePlayer 0 1) samplePlayTruthful).defendingPlayer.score =
        samplePlayTruthful.player.score) ∧
    (ChallengeSystem.processChallenge (samplePlayer 0 1) samplePlayTruthful).challenger.score = 0 ∧
    (ChallengeSystem.processChallenge (samplePlayer 0 0) samplePlayTruthful).challenger.score = 0 ∧
    (ChallengeSystem.processChallenge (samplePlayer 0 1) samplePlayTruthful).defendingPlayer.score = 5 :=
  ⟨C3_failed_challenge_penalizes_challenger_only (samplePlayer 0 1) samplePlayTruthful rfl,
    by decide, by decide, by decide⟩

/-- Claim C4: challenging a bluffing play (claimed type different from the
actual type) yields CHALLENGE_SUCCESSFUL with wasBluff true, reveals the
challenged card, and changes no score: pointsChanged is 0 and both the
challenger score and the defending player score are untouched. -/
theorem C4_successful_challenge_reveals_without_points (challenger : Player)
    (play : PendingPlay) (h : play.claimedType ≠ play.actualType) :
    (ChallengeSystem.processChallenge challenger play).result = ChallengeResult.successful ∧
    (ChallengeSystem.processChallenge challenger play).wasBluff = true ∧
    (ChallengeSystem.processChallenge challenger play).card.isRevealed = true ∧
    (ChallengeSystem.processChallenge challenger play).pointsChanged = 0 ∧
    (ChallengeSystem.processChallenge challenger play).challenger.score =
      challenger.score ∧
    (ChallengeSystem.processChallenge challenger play).defendingPlayer.score =
      play.player.score := by
  have hb : (play.claimedType != play.actualType) = true := bne_iff_ne.mpr h
  simp [ChallengeSystem.processChallenge, hb, Card.reveal,
    Player.updateBehaviorProfile]

/-- Witness for claim C4: the sample bluffing play (a rock claimed as paper)
challenged by a player at score 2. -/
theorem C4_successful_challenge_reveals_without_points_witness :
    (ChallengeSystem.processChallenge (samplePlayer 0 2) samplePlayBluff).result =
        ChallengeResult.successful ∧
    (ChallengeSystem.processChallenge (samplePlayer 0 2) samplePlayBluff).wasBluff = true ∧
    (ChallengeSystem.processChallenge (samplePlayer 0 2) samplePlayBluff).card.isRevealed = true ∧
    (ChallengeSystem.processChallenge (samplePlayer 0 2) samplePlayBluff).pointsChanged = 0 ∧
    (ChallengeSystem.processChallenge (samplePlayer 0 2) samplePlayBluff).challenger.score =
      (samplePlayer 0 2).score ∧
    (ChallengeSystem.processChallenge (samplePlayer 0 2) samplePlayBluff).defendingPlayer.score =
      samplePlayBluff.player.score :=
  C4_successful_challenge_reveals_without_points (samplePlayer 0 2) samplePlayBluff
    (by decide)

/-- Claim C5: at most one makeChallenge succeeds per registered play.
makeChallenge fails and returns the system and the challenger unchanged
when no pending play is challengeable; it fails the same way on any system
whose challenge window was closed by expiry; it fails with the
self-challenge error, again without mutation, when the challenger is the
author of the pending play; and after one successful challenge every
further makeChallenge on the resulting system fails without mutation. -/
theorem C5_at_most_one_successful_challenge (sys : ChallengeSystem)
    (challenger : Player) :
    (sys.hasChallengeablePlay = false →
      sys.makeChallenge challenger =
        (makeChallengeFailure ChallengeError.noChallengeablePlay, sys, challenger)) ∧
    (∀ play, sys.lastPlayedCard = some play → play.challengeable = true →
      challenger.id = play.player.id →
      sys.makeChallenge challenger =
        (makeChallengeFailure ChallengeError.selfChallenge, sys, challenger)) ∧
    (∀ ch2 : Player,
      sys.closeChallengeWindow.makeChallenge ch2 =
        (makeChallengeFailure ChallengeError.noChallengeablePlay,
          sys.closeChallengeWindow, ch2)) ∧
    ((sys.makeChallenge challenger).1.success = true →
      ∀ ch2 : Player,
        (sys.makeChallenge challenger).2.1.makeChallenge ch2 =
          (makeChallengeFailure ChallengeError.noChallengeablePlay,
            (sys.makeChallenge challenger).2.1, ch2)) := by
  refine ⟨?_, ?_, ?_, ?_⟩
  · intro h
    rcases hsys : sys.lastPlayedCard with _ | play
    · simp [ChallengeSystem.makeChallenge, hsys]
    · have hch : play.challengeable = false := by
        simpa [ChallengeSystem.hasChallengeablePlay, hsys] using h

      simp [ChallengeSystem.makeChallenge, hsys, hch]
  · intro play hsys hch hid
    simp [ChallengeSystem.makeChallenge, hsys, hch, hid]
  · intro ch2
    rcases hsys : sys.lastPlayedCard with _ | play
    · simp [ChallengeSystem.closeChallengeWindow, ChallengeSystem.makeChallenge, hsys]
    · simp [ChallengeSystem.closeChallengeWindow, ChallengeSystem.makeChallenge, hsys]
  · intro hsucc ch2
    rcases hsys : sys.lastPlayedCard with _ | play
    · simp [ChallengeSystem.makeChallenge, hsys, makeChallengeFailure] at hsucc
    · by_cases hch : play.challengeable = false
      · simp [ChallengeSystem.makeChallenge, hsys, hch, makeChallengeFailure] at hsucc
      · by_cases hid : challenger.id = play.player.id
        · simp [ChallengeSystem.makeChallenge, hsys, hch, hid, makeChallengeFailure] at hsucc
        · simp [ChallengeSystem.makeChallenge, hsys, hch, hid]

/-- Witness for claim C5 on concrete inputs: the empty system rejects a
challenge; the author of the sample pending play cannot challenge it; a
system whose window was closed rejects a challenge; and after the player
with id 0 successfully challenges the sample play, a second challenge by
the player with id 2 is rejected and mutates nothing. -/
theorem C5_at_most_one_successful_challenge_witness :
    (emptyChallengeSystem.makeChallenge (samplePlayer 0 3) =
      (makeChallengeFailure ChallengeError.noChallengeablePlay,
        emptyChallengeSystem, samplePlayer 0 3)) ∧
    (sampleSys.makeChallenge (samplePlayer 1 5) =
      (makeChallengeFailure ChallengeError.selfChallenge, sampleSys, samplePlayer 1 5)) ∧
    (sampleSys.closeChallengeWindow.makeChallenge (samplePlayer 0 3) =
      (makeChallengeFailure ChallengeError.noChallengeablePlay,
        sampleSys.closeChallengeWindow, samplePlayer 0 3)) ∧
    ((sampleSys.makeChallenge (samplePlayer 0 3)).2.1.makeChallenge (samplePlayer 2 4) =
      (makeChallengeFailure ChallengeError.noChallengeablePlay,
        (sampleSys.makeChallenge (samplePlayer 0 3)).2.1, samplePlayer 2 4)) :=
  ⟨(C5_at_most_one_successful_challenge emptyChallengeSystem (samplePlayer 0 3)).1 rfl,
    (C5_at_most_one_successful_challenge sampleSys (samplePlayer 1 5)).2.1
      samplePlayTruthful rfl rfl rfl,
    (C5_at_most_one_successful_challenge sampleSys (samplePlayer 0 3)).2.2.1
      (samplePlayer 0 3),
    (C5_at_most_one_successful_challenge sampleSys (samplePlayer 0 3)).2.2.2
      (by decide) (samplePlayer 2 4)⟩

/-- Counterexample for claim C8: closeChallengeWindow is not idempotent on
the full observable state, because every call, including the second one,
emits the window-closed event: on the sample system, calling it twice does
not produce the same end state as calling it once. -/
theorem C8_counterexample_second_close_emits_again :
    sampleSys.closeChallengeWindow.closeChallengeWindow ≠
      sampleSys.closeChallengeWindow := by decide

/-- Claim C8 as amended: calling closeChallengeWindow twice produces the
same pending play, challenge history and timer state as calling it once
(the pending play stays non-challengeable and the timer stays cancelled),
but the second call emits one more window-closed event: the emission is
unconditional in the source, so the side effect is repeated. -/
theorem C8_amended_close_idempotent_except_emission (sys : ChallengeSystem) :
    sys.closeChallengeWindow.closeChallengeWindow.lastPlayedCard =
      sys.closeChallengeWindow.lastPlayedCard ∧
    sys.closeChallengeWindow.closeChallengeWindow.challengeHistory =
      sys.closeChallengeWindow.challengeHistory ∧
    sys.closeChallengeWindow.closeChallengeWindow.timerActive = false ∧
    sys.closeChallengeWindow.timerActive = false ∧
    sys.closeChallengeWindow.hasChallengeablePlay = false ∧
    sys.closeChallengeWindow.closeChallengeWindow.hasChallengeablePlay = false ∧
    sys.closeChallengeWindow.closeChallengeWindow.closedEventCount =
      sys.closeChallengeWindow.closedEventCount + 1 := by
  rcases hsys : sys.lastPlayedCard with _ | play <;>
    simp [ChallengeSystem.closeChallengeWindow, ChallengeSystem.hasChallengeablePlay, hsys]

/-- Every pair produced by the claim-side battle-pair definition is a
consecutive pair lying in the same row. -/
theorem battlePairsSpec_mem (g : GridSystem) (pr : BattlePair)
    (hpr : pr ∈ battlePairsSpec g) :
    pr.position2 = pr.position1 + 1 ∧
    pr.position1 / g.width = pr.position2 / g.width := by
  unfold battlePairsSpec at hpr
  obtain ⟨p, hp, heq⟩ := List.mem_filterMap.mp hpr
  cases hc1 : g.getCardAt p with
  | none => rw [hc1] at heq; simp at heq
  | some c1 =>
    cases hc2 : g.getCardAt (p + 1) with
    | none => rw [hc1, hc2] at heq; simp at heq
    | some c2 =>
      rw [hc1, hc2] at heq
      dsimp only at heq
      by_cases hcond :
          p / g.width = (p + 1) / g.width ∧ (p + 1) % g.width = p % g.width + 1
      · rw [if_pos hcond] at heq
        have hpr2 := Option.some.inj heq
        subst hpr2
        exact ⟨rfl, hcond.1⟩
      · rw [if_neg hcond] at heq
        simp at heq

/-- Claim C6: getBattlePairs returns exactly the occupied, same-row,
column-adjacent pairs (p, p+1) for p in 0..N-2, in increasing order of p,
as expressed by the claim-side reference definition; consequently, on a
width-5 grid, position 4 is never paired with position 5 across the row
boundary. -/
theorem C6_battle_pairs_same_row_adjacent (g : GridSystem) :
    g.getBattlePairs = battlePairsSpec g ∧
    (g.width = 5 → ∀ pr ∈ g.getBattlePairs,
      ¬ (pr.position1 = 4 ∧ pr.position2 = 5)) := by
  have hmain : g.getBattlePairs = battlePairsSpec g := by
    unfold GridSystem.getBattlePairs battlePairsSpec
    refine List.filterMap_congr ?_
    intro p hp
    have hp0 := List.mem_range.mp hp
    have hp1 : p < g.totalPositions := by omega
    have hp2 : p + 1 < g.totalPositions := by omega
    cases hc1 : g.getCardAt p <;> cases hc2 : g.getCardAt (p + 1) <;>
      simp [GridSystem.positionToCoords, hp1, hp2]
  refine ⟨hmain, ?_⟩
  intro hw pr hpr hbad
  have hm := battlePairsSpec_mem g pr (by rw [hmain] at hpr; exact hpr)
  rw [hbad.1, hbad.2, hw] at hm
  exact absurd hm.2 (by decide)

/-- Witness for claim C6: on the sample 5 by 3 grid with cards at positions
3, 4 and 5, the enumeration agrees with the claim-side definition, and the
pair of the occupied positions 4 and 5 (which straddles the row boundary)
is not among the battle pairs. -/
theorem C6_battle_pairs_same_row_adjacent_witness :
    sampleGrid.getBattlePairs = battlePairsSpec sampleGrid ∧
    ¬ ((⟨4, placedSampleCard 21 CardType.rock 4, 5,
          placedSampleCard 22 CardType.scissors 5⟩ : BattlePair) ∈
        sampleGrid.getBattlePairs) :=
  ⟨(C6_battle_pairs_same_row_adjacent sampleGrid).1,
    fun hmem =>
      (C6_battle_pairs_same_row_adjacent sampleGrid).2 rfl _ hmem ⟨rfl, rfl⟩⟩

/-- Claim C10: removeCard mutates only the grid, never the removed card:
for an in-range position p occupied by card c, removeCard p empties the
slot (getCardAt p becomes none and the position state becomes EMPTY) and
returns c itself, every field untouched: in particular the returned card
still records position p and the placed state, which the grid no longer
associates with it. -/
theorem C10_removeCard_mutates_only_grid (g : GridSystem) (p : Nat) (c : Card)
    (hc : g.getCardAt p = some c) (hpos : c.position = some p)
    (hstate : c.state = CardState.placed) :
    ∃ g2 : GridSystem,
      g.removeCard p = some (some c, g2) ∧
      g2.getCardAt p = none ∧
      g2.getPositionState p = PositionState.empty ∧
      c.position = some p ∧
      c.state = CardState.placed := by
  have hp : p < g.totalPositions := by
    by_contra hnp
    rw [GridSystem.getCardAt, if_neg hnp] at hc
    exact Option.noConfusion hc
  have hg : g.grid.getD p none = some c := by
    rw [GridSystem.getCardAt, if_pos hp] at hc
    exact hc
  have hp2 : p < g.width * g.height := hp
  refine ⟨{ g with
      grid := g.grid.set p none,
      positionStates := g.positionStates.set p PositionState.empty },
    ?_, ?_, ?_, hpos, hstate⟩
  · simp only [GridSystem.removeCard, if_pos hp, hg]
  · simp only [GridSystem.getCardAt, GridSystem.totalPositions]
    rw [if_pos hp2]
    rcases Nat.lt_or_ge p g.grid.length with hlt | hge
    · simp [List.getD_eq_getElem?_getD, List.getElem?_set_self, hlt]
    · rw [List.set_eq_of_length_le hge]
      simp [List.getD_eq_getElem?_getD, List.getElem?_eq_none hge]
  · simp only [GridSystem.getPositionState, GridSystem.totalPositions]
    rw [if_pos hp2]
    rcases Nat.lt_or_ge p g.positionStates.length with hlt | hge
    · simp [List.getD_eq_getElem?_getD, List.getElem?_set_self, hlt]
    · rw [List.set_eq_of_length_le hge]
      simp [List.getD_eq_getElem?_getD, List.getElem?_eq_none hge]

/-- Witness for claim C10: removing the card at position 3 of the sample
grid empties the slot while the returned card still records position 3 and
the placed state. -/
theorem C10_removeCard_mutates_only_grid_witness :
    ∃ g2 : GridSystem,
      sampleGrid.removeCard 3 = some (some (placedSampleCard 20 CardType.paper 3), g2) ∧
      g2.getCardAt 3 = none ∧
      g2.getPositionState 3 = PositionState.empty ∧
      (placedSampleCard 20 CardType.paper 3).position = some 3 ∧
      (placedSampleCard 20 CardType.paper 3).state = CardState.placed :=
  C10_removeCard_mutates_only_grid sampleGrid 3
    (placedSampleCard 20 CardType.paper 3) (by decide) rfl rfl

end BluffBattle
